import Mathlib

/-!
Shallow embedding of the AI art gallery Cloudflare Worker
(`src/worker.js`) together with proofs about its request-admission
pipeline.

Modelling conventions:

* JavaScript strings are Lean `String`s; the handful of string
  operations the worker uses (`includes`, `toLowerCase`, `trim`,
  `slice(1)`, `startsWith`, `replace(/[:.]/g,"-")`) are defined below
  over `String.data` so that they compute by kernel reduction.
  JavaScript `length` counts UTF-16 units and Lean counts code points;
  they agree on all strings appearing in the worker and in the claims.
* JavaScript numbers in the spending ledger are IEEE-754 binary64
  values.  Every value the ledger can reach is an exact multiple of
  2 ^ (-61), so doubles are represented exactly as naturals scaled by
  2 ^ 61, and binary64 addition (round to nearest, ties to even) is
  implemented exactly on that representation (`litToScaled`, `faddS`).
  `redis.set(k, String(x))` followed by `parseFloat` round-trips a
  double exactly, so ledger entries are stored as the scaled naturals
  themselves.
* External collaborators (the Upstash rate limiter, the Stability
  generation call, the two R2 `put`s, and the clock) are inputs: an
  `Oracle` records the outcome each external call would produce.  The
  R2 bucket and the redis spend keys are explicit finite maps in
  `Store`.
* `fetch` returns, besides the response and the updated store, the
  list of externally visible actions it performed, in order, which the
  temporal claims are stated against.
-/

/-! ## JavaScript string primitives -/

/-- The worker only ever lower-cases ASCII prompts; `toLowerCase` is
modelled character-wise. -/
def jsToLower (s : String) : String := ⟨s.data.map Char.toLower⟩

/-- Whether `l2` occurs as a contiguous sublist of `l1` (JavaScript
`String.prototype.includes` on the underlying characters). -/
def subListAt : List Char → List Char → Bool
  | l, sub => if sub.isPrefixOf l then true else
      match l with
      | [] => false
      | _ :: t => subListAt t sub

/-- JavaScript `s.includes(sub)`. -/
def jsIncludes (s sub : String) : Bool := subListAt s.data sub.data

/-- JavaScript `s.startsWith(pre)`. -/
def jsStartsWith (s pre : String) : Bool := pre.data.isPrefixOf s.data

/-- JavaScript `s.slice(1)`. -/
def jsSlice1 (s : String) : String := ⟨s.data.drop 1⟩

/-- JavaScript `s.trim()` (whitespace at both ends; the class of
whitespace characters is modelled by `Char.isWhitespace`). -/
def jsTrim (s : String) : String :=
  ⟨((s.data.dropWhile Char.isWhitespace).reverse.dropWhile Char.isWhitespace).reverse⟩

/-- JavaScript `s.replace(/[:.]/g, "-")` as used on ISO timestamps. -/
def fmtTs (s : String) : String :=
  ⟨s.data.map (fun c => if c = ':' ∨ c = '.' then '-' else c)⟩

/-- Leading decimal digits of a character list, as a number. -/
def takeDigits : List Char → Nat → Nat
  | [], acc => acc
  | c :: cs, acc => if c.isDigit then takeDigits cs (acc * 10 + (c.toNat - 48)) else acc

/-- JavaScript `parseInt` restricted to the decimal forms that occur in
`content-length` headers: optional surrounding whitespace, optional
sign, then leading digits; `none` models `NaN`.  (The hexadecimal
`0x` autodetection of `parseInt` is not modelled.) -/
def jsParseInt (s : String) : Option Int :=
  match (jsTrim s).data with
  | '-' :: c :: cs => if c.isDigit then some (-(takeDigits (c :: cs) 0 : Int)) else none
  | '+' :: c :: cs => if c.isDigit then some ((takeDigits (c :: cs) 0 : Int)) else none
  | c :: cs => if c.isDigit then some ((takeDigits (c :: cs) 0 : Int)) else none
  | [] => none

/-! ## Exact IEEE-754 binary64 arithmetic, scaled by 2 ^ 61 -/

/-- Number of binary digits of `n` (structural, fuel-bounded; 128 bits
of fuel covers every value occurring in the ledger). -/
def bitsAux : Nat → Nat → Nat
  | 0, _ => 0
  | fuel + 1, n => if n = 0 then 0 else bitsAux fuel (n / 2) + 1

/-- Number of binary digits of `n`. -/
def bits (n : Nat) : Nat := bitsAux 128 n

/-- Round the rational `num / den` to the nearest IEEE-754 binary64
value, ties to even, returned scaled by `2 ^ 61`.  Exact whenever the
result is a normal double whose unit in the last place is at least
`2 ^ (-61)`, which holds for every value the spending ledger reaches. -/
def litToScaled (num den : Nat) : Nat :=
  let T := num * 2 ^ 61
  let b := bits (T / den)
  let d := b - 53
  let D := den * 2 ^ d
  let q := T / D
  let r := T % D
  let q2 := if D < 2 * r then q + 1
            else if 2 * r < D then q
            else if q % 2 = 0 then q else q + 1
  q2 * 2 ^ d

/-- IEEE-754 binary64 addition on scaled ledger values. -/
def faddS (a b : Nat) : Nat := litToScaled (a + b) (2 ^ 61)

/-! ## Security configuration (`SECURITY_CONFIG` in the source) -/

def MAX_PROMPT_LENGTH : Nat := 500

def MIN_PROMPT_LENGTH : Nat := 3

def MAX_REQUEST_SIZE : Nat := 10000

/-- The `10.00` dollar daily cap, as a scaled double. -/
def DAILY_SPENDING_CAP : Nat := litToScaled 1000 100

def GLOBAL_RATE_LIMIT : Nat := 100

def BLOCKED_WORDS : List String :=
  ["nude", "nsfw", "naked", "porn", "xxx", "sex", "explicit",
   "gore", "violence", "kill", "death", "suicide", "weapon"]

/-- The `0.004` dollar per-image cost (`costPerImage`), as a scaled
double. -/
def costPerImage : Nat := litToScaled 4 1000

/-! ## Data model -/

/-- JSON values, as produced by `request.json()`.  Numbers are scaled
doubles (see the header); only their truthiness is ever consumed. -/
inductive Json where
  | null : Json
  | bool (b : Bool) : Json
  | num (scaled : Nat) : Json
  | str (s : String) : Json
  | arr (elems : List Json) : Json
  | obj (fields : List (String × Json)) : Json

/-- JavaScript property access `v.f` on a parsed JSON value other
than `null` (primitives are boxed, so access on them yields
`undefined`); `none` models `undefined`.  Access on `null` itself
throws, which `afterAdmit` models separately. -/
def Json.getField : Json → String → Option Json
  | .obj fields, k => fields.lookup k
  | _, _ => none

/-- Whether a parsed JSON value is the literal `null`. -/
def Json.isNull : Json → Bool
  | .null => true
  | _ => false

/-- JavaScript truthiness of a possibly-`undefined` JSON value. -/
def jsTruthy : Option Json → Bool
  | none => false
  | some .null => false
  | some (.bool b) => b
  | some (.num v) => v != 0
  | some (.str s) => s != ""
  | some (.arr _) => true
  | some (.obj _) => true

/-- An inbound HTTP request, reduced to the parts the worker reads.
`jsonBody = none` models a body that `request.json()` fails to parse. -/
structure Request where
  method : String
  pathname : String
  host : String
  protocol : String
  contentLength : Option String
  origin : Option String
  referer : Option String
  apiKey : Option String
  cfConnectingIp : Option String
  jsonBody : Option Json

/-- The worker environment.  `upstashConfigured` is the truthiness of
`UPSTASH_REDIS_REST_URL && UPSTASH_REDIS_REST_TOKEN`; `demoApiKey` is
`DEMO_API_KEY` (`none` when unset). -/
structure Env where
  demoApiKey : Option String
  upstashConfigured : Bool
deriving DecidableEq

/-- Result of the external `generateImage` call: bytes, or a rejection
carrying an error message. -/
inductive GenResult where
  | ok (bytes : List Nat) : GenResult
  | error (msg : String) : GenResult
deriving DecidableEq

/-- Outcomes of the external calls a single request may perform: the
two Upstash limiters, the three clock reads, the generation call and
the two R2 writes.  `gen = .error msg` is a `generateImage` rejection
whose error has message `msg`; `putHistoryErr` / `putLatestErr` are
the R2 write outcomes (`some msg` = rejection). -/
structure Oracle where
  ipAllow : Bool
  ipRemaining : Int
  ipReset : Int
  globalAllow : Bool
  budgetDay : String
  spendDay : String
  nowIso : String
  gen : GenResult
  putHistoryErr : Option String
  putLatestErr : Option String
deriving DecidableEq

/-- A stored R2 object. -/
structure ArtObject where
  body : List Nat
  contentType : String
  cacheControl : String
deriving DecidableEq

/-- External persistent state: the redis spend keys (scaled doubles)
and the R2 bucket.  Both are association lists where a new write is
prepended, so `List.lookup` returns the most recent write. -/
structure Store where
  spend : List (String × Nat)
  art : List (String × ArtObject)
deriving DecidableEq

/-- Externally visible actions of one request, in order.  `incIp` and
`incGlobal` are the two `Ratelimit.limit` calls (each consumes its
fixed-window counter), `readBudget` the ledger read of the budget
check, `callGenerate` the generation call, `writeSpend` the ledger
update, `putAttempt` an R2 write attempt, `getArt` an R2 read. -/
inductive Event where
  | incIp (ip : String) : Event
  | incGlobal : Event
  | readBudget (day : String) : Event
  | callGenerate (prompt : String) : Event
  | writeSpend (day : String) (value : Nat) : Event
  | putAttempt (key : String) (body : List Nat) : Event
  | getArt (key : String) : Event
deriving DecidableEq

/-- Response bodies, by shape. -/
inductive Body where
  | jsonErr (error : String) (message : Option String) : Body
  | jsonOk (latestUrl historyUrl prompt : String) : Body
  | text (s : String) : Body
  | blob (b : List Nat) : Body
  | health (rateLimit : String) : Body
  | page : Body
deriving DecidableEq

/-- An HTTP response: status, explicitly set headers, body. -/
structure HttpResponse where
  status : Nat
  headers : List (String × String)
  body : Body
deriving DecidableEq

/-- Result of running `fetch`: a response, or an uncaught JavaScript
exception escaping the handler. -/
inductive JsOutcome where
  | ok (resp : HttpResponse) : JsOutcome
  | typeError (msg : String) : JsOutcome
deriving DecidableEq

/-! ## The worker (`export default { fetch }` in `src/worker.js`) -/

/-- JSON error response with a `message` field. -/
def jsonErrResp (status : Nat) (error message : String) : HttpResponse :=
  ⟨status, [("content-type", "application/json")], .jsonErr error (some message)⟩

/-- Stage 0, request size validation: `contentLength &&
parseInt(contentLength) > SECURITY_CONFIG.MAX_REQUEST_SIZE`.
A missing or empty header is falsy, and `NaN > n` is false. -/
def sizeExceeded : Option String → Bool
  | none => false
  | some s =>
      if s = "" then false
      else match jsParseInt s with
           | none => false
           | some n => n > (MAX_REQUEST_SIZE : Int)

/-- Truthiness of a possibly-absent header value. -/
def headerTruthy : Option String → Bool
  | none => false
  | some s => s != ""

/-- Stage 1: `origin?.includes(url.host) || referer?.includes(url.host)`. -/
def isSameOrigin (req : Request) : Bool :=
  (match req.origin with
   | none => false
   | some o => jsIncludes o req.host) ||
  (match req.referer with
   | none => false
   | some r => jsIncludes r req.host)

/-- Stage 1 rejection condition:
`!isSameOrigin && (!apiKey || apiKey !== env.DEMO_API_KEY)`.
Strict JavaScript equality between a string and `undefined` is false. -/
def authRejected (req : Request) (env : Env) : Bool :=
  !isSameOrigin req &&
    (!headerTruthy req.apiKey ||
      match req.apiKey, env.demoApiKey with
      | some a, some d => a != d
      | _, _ => true)

/-- The credential admission case: a presented `x-api-key` that equals
the configured `DEMO_API_KEY`. -/
def apiKeyMatches (req : Request) (env : Env) : Bool :=
  headerTruthy req.apiKey &&
    match req.apiKey, env.demoApiKey with
    | some a, some d => a == d
    | _, _ => false

/-- A request is admitted past stage 1 iff it is same-origin or
presents the configured secret. -/
def authorized (req : Request) (env : Env) : Bool :=
  isSameOrigin req || apiKeyMatches req env

/-- The ledger value the budget check reads:
`parseFloat(await redis.get(spendKey) || "0")`. -/
def dailySpendOf (σ : Store) (day : String) : Nat :=
  (σ.spend.lookup ("spend:" ++ day)).getD 0

/-- Stage 7 `catch` block: map a failure message to a response by
best-effort substring matching. -/
def mapGenError (msg : String) : HttpResponse :=
  if jsIncludes msg "insufficient_credits" || jsIncludes msg "402" then
    jsonErrResp 402 "insufficient_credits"
      "AI provider credits exhausted. Please contact administrator."
  else if jsIncludes msg "timeout" || jsIncludes msg "ETIMEDOUT" then
    jsonErrResp 504 "timeout" "Request timed out. Please try again."
  else if jsIncludes msg "rate_limit" || jsIncludes msg "429" then
    jsonErrResp 429 "ai_provider_rate_limit"
      "AI provider is rate limiting. Please wait a moment."
  else if jsIncludes msg "invalid_prompt" || jsIncludes msg "400" then
    jsonErrResp 400 "invalid_prompt_for_provider"
      "Prompt was rejected by AI provider. Try different wording."
  else
    jsonErrResp 500 "generation_failed" "Image generation failed. Please try again."

/-- R2 `put` with the metadata the worker sets. -/
def putArt (σ : Store) (key : String) (bytes : List Nat) (cacheControl : String) : Store :=
  { σ with art := (key, ⟨bytes, "image/jpeg", cacheControl⟩) :: σ.art }

/-- Stages 6-9: generation, spending tracker, persistence, response.
`prompt` is the validated prompt. -/
def generateStage (req : Request) (env : Env) (ω : Oracle) (σ : Store)
    (prompt : String) : JsOutcome × Store × List Event :=
  match ω.gen with
  | .error msg => (.ok (mapGenError msg), σ, [.callGenerate prompt])
  | .ok imageBytes =>
    if imageBytes.length > 5 * 1024 * 1024 then
      (.ok (jsonErrResp 500 "image_too_large" "Generated image exceeds size limit"),
        σ, [.callGenerate prompt])
    else
      -- 7) update spending tracker (expiry of the spend key is not modelled)
      let spendStep : Store × List Event :=
        if env.upstashConfigured then
          let spendKey := "spend:" ++ ω.spendDay
          let currentSpend := (σ.spend.lookup spendKey).getD 0
          let v := faddS currentSpend costPerImage
          ({ σ with spend := (spendKey, v) :: σ.spend }, [.writeSpend ω.spendDay v])
        else (σ, [])
      let σ1 := spendStep.1
      -- 8) store in R2 (both history and latest, both attempted)
      let historyKey := "art/" ++ fmtTs ω.nowIso ++ ".jpg"
      let latestKey := "art/latest.jpg"
      let σ2 := if ω.putHistoryErr.isNone then
          putArt σ1 historyKey imageBytes "public, max-age=31536000, immutable" else σ1
      let σ3 := if ω.putLatestErr.isNone then
          putArt σ2 latestKey imageBytes "no-store, max-age=0" else σ2
      let evs := .callGenerate prompt :: spendStep.2 ++
        [.putAttempt historyKey imageBytes, .putAttempt latestKey imageBytes]
      -- a failed write rejects Promise.all and lands in the catch block
      match ω.putHistoryErr with
      | some m => (.ok (mapGenError m), σ3, evs)
      | none =>
        match ω.putLatestErr with
        | some m => (.ok (mapGenError m), σ3, evs)
        | none =>
          -- 9) return URLs
          let origin := req.protocol ++ "//" ++ req.host
          (.ok ⟨200, [("content-type", "application/json")],
              .jsonOk (origin ++ "/art/latest.jpg") (origin ++ "/" ++ historyKey) prompt⟩,
            σ3, evs)

/-- Stages 4-6: prompt validation and content filtering, on the
already-trimmed prompt. -/
def validateStage (req : Request) (env : Env) (ω : Oracle) (σ : Store)
    (prompt : String) : JsOutcome × Store × List Event :=
  if prompt = "" || prompt.length < MIN_PROMPT_LENGTH then
    (.ok (jsonErrResp 400 "invalid_prompt" "Prompt must be at least 3 characters"), σ, [])
  else if prompt.length > MAX_PROMPT_LENGTH then
    (.ok (jsonErrResp 400 "prompt_too_long" "Prompt must be less than 500 characters"), σ, [])
  else if (BLOCKED_WORDS.find? (fun w => jsIncludes (jsToLower prompt) w)).isSome then
    (.ok (jsonErrResp 400 "inappropriate_prompt" "Prompt contains inappropriate content"), σ, [])
  else generateStage req env ω σ prompt

/-- Stages 3-9, entered once the request is admitted: body parsing,
then `(body.prompt || "").trim()`.  A truthy non-string `prompt` field
makes `.trim()` throw an uncaught `TypeError`. -/
def afterAdmit (req : Request) (env : Env) (ω : Oracle) (σ : Store) :
    JsOutcome × Store × List Event :=
  match req.jsonBody with
  | none => (.ok (jsonErrResp 400 "invalid_json" "Request body must be valid JSON"), σ, [])
  | some body =>
    -- a body that parsed to the JSON literal null makes the property
    -- access body.prompt itself throw, outside any try block
    if body.isNull then (.typeError "cannot read properties of null", σ, [])
    else
      match body.getField "prompt" with
      | some (.str s) => validateStage req env ω σ (jsTrim s)
      | pv =>
        if jsTruthy pv then (.typeError "promptValue.trim is not a function", σ, [])
        else validateStage req env ω σ ""

/-- The `POST /api/generate` pipeline (stages 0-9). -/
def generatePipeline (req : Request) (env : Env) (ω : Oracle) (σ : Store) :
    JsOutcome × Store × List Event :=
  -- 0) request size validation
  if sizeExceeded req.contentLength then
    (.ok (jsonErrResp 413 "request_too_large" "Request body exceeds 10KB limit"), σ, [])
  -- 1) authentication check
  else if authRejected req env then
    (.ok ⟨401, [("content-type", "application/json")], .jsonErr "unauthorized" none⟩, σ, [])
  -- 2) rate limiting (if Upstash configured), then the daily cap check
  else if env.upstashConfigured then
    let ip := req.cfConnectingIp.getD "unknown"
    if !ω.ipAllow then
      (.ok ⟨429, [("content-type", "application/json"),
          ("x-ratelimit-remaining", toString ω.ipRemaining),
          ("x-ratelimit-reset", toString ω.ipReset)],
        .jsonErr "rate_limit_exceeded"
          (some "Too many requests from your IP. Try again in 1 minute.")⟩,
        σ, [.incIp ip])
    else if !ω.globalAllow then
      (.ok (jsonErrResp 429 "global_rate_limit_exceeded"
          "System is currently at capacity. Please try again later."),
        σ, [.incIp ip, .incGlobal])
    else if dailySpendOf σ ω.budgetDay ≥ DAILY_SPENDING_CAP then
      (.ok (jsonErrResp 429 "daily_budget_exceeded"
          "Daily spending cap of $10 reached. Resets at midnight UTC."),
        σ, [.incIp ip, .incGlobal, .readBudget ω.budgetDay])
    else
      let r := afterAdmit req env ω σ
      (r.1, r.2.1, .incIp ip :: .incGlobal :: .readBudget ω.budgetDay :: r.2.2)
  else afterAdmit req env ω σ

/-- The worker entry point.  Routing is by method and path, exactly in
source order; no branch matches `OPTIONS`, which therefore falls
through to the final 404. -/
def fetch (req : Request) (env : Env) (ω : Oracle) (σ : Store) :
    JsOutcome × Store × List Event :=
  if req.method = "POST" && req.pathname = "/api/generate" then
    generatePipeline req env ω σ
  else if req.method = "GET" && jsStartsWith req.pathname "/art/" then
    let key := jsSlice1 req.pathname
    match σ.art.lookup key with
    | none => (.ok ⟨404, [], .text "Image not found"⟩, σ, [.getArt key])
    | some object =>
      -- headers from the stored metadata plus CORS; the R2-generated
      -- etag header is not modelled
      (.ok ⟨200, [("content-type", object.contentType),
          ("cache-control", object.cacheControl),
          ("access-control-allow-origin", "*")], .blob object.body⟩,
        σ, [.getArt key])
  else if req.method = "GET" && req.pathname = "/health" then
    (.ok ⟨200, [("content-type", "application/json")],
        .health (if env.upstashConfigured then "enabled" else "disabled")⟩, σ, [])
  else if req.method = "GET" && req.pathname = "/" then
    (.ok ⟨200, [("content-type", "text/html;charset=UTF-8")], .page⟩, σ, [])
  else
    (.ok ⟨404, [], .text "Not found"⟩, σ, [])

/-- Status of an outcome (`none` for an uncaught exception). -/
def statusOf : JsOutcome → Option Nat
  | .ok r => some r.status
  | .typeError _ => none

/-- Machine-readable error kind of an outcome, when the response is a
JSON error body. -/
def errKindOf : JsOutcome → Option String
  | .ok ⟨_, _, .jsonErr e _⟩ => some e
  | _ => none

/-! ## Concrete fixtures used by witnesses and counterexamples -/

/-- A same-origin `POST /api/generate` request with the given parsed
body. -/
def demoRequest (body : Option Json) : Request :=
  { method := "POST"
    pathname := "/api/generate"
    host := "gallery.example.com"
    protocol := "https:"
    contentLength := none
    origin := some "https://gallery.example.com"
    referer := none
    apiKey := none
    cfConnectingIp := some "203.0.113.7"
    jsonBody := body }

/-- A well-formed body with the given prompt string. -/
def promptBody (s : String) : Option Json := some (.obj [("prompt", .str s)])

/-- Environment with the counter store configured. -/
def envUpstash : Env := { demoApiKey := some "demo-secret", upstashConfigured := true }

/-- Environment without the counter store. -/
def envPlain : Env := { demoApiKey := some "demo-secret", upstashConfigured := false }

/-- Oracle for a fully successful generation of `bytes` stamped `iso`,
on the fixed UTC day 2025-06-01. -/
def okOracle (iso : String) (bytes : List Nat) : Oracle :=
  { ipAllow := true
    ipRemaining := 9
    ipReset := 0
    globalAllow := true
    budgetDay := "2025-06-01"
    spendDay := "2025-06-01"
    nowIso := iso
    gen := .ok bytes
    putHistoryErr := none
    putLatestErr := none }

/-- The empty store. -/
def emptyStore : Store := ⟨[], []⟩


/-! ## Structural lemmas about the pipeline -/

/-- Kinds that only the admission stages (0-2) can produce. -/
def notAdmissionKind (o : Option String) : Bool :=
  o != some "unauthorized" && o != some "request_too_large" &&
  o != some "daily_budget_exceeded" && o != some "rate_limit_exceeded" &&
  o != some "global_rate_limit_exceeded"

/-- Events that stages 3-9 may emit. -/
def isStageEvent : Event → Bool
  | .callGenerate _ => true
  | .writeSpend _ _ => true
  | .putAttempt _ _ => true
  | _ => false

/-- The stage 7 error mapping never produces an admission-stage kind. -/
theorem mapGenError_kind (m : String) :
    notAdmissionKind (errKindOf (.ok (mapGenError m))) = true := by
  unfold mapGenError jsonErrResp
  repeat' split
  all_goals rfl

set_option maxHeartbeats 1000000 in
/-- Stages 3-9 never produce an admission-stage error kind. -/
theorem afterAdmit_kind (req : Request) (env : Env) (ω : Oracle) (σ : Store) :
    notAdmissionKind (errKindOf (afterAdmit req env ω σ).1) = true := by
  unfold afterAdmit validateStage generateStage
  repeat' split
  all_goals try exact mapGenError_kind _
  all_goals rfl

set_option maxHeartbeats 1000000 in
/-- Stages 3-9 never touch the rate-limit counters nor read the budget
ledger: they only generate, write spend, and attempt R2 writes. -/
theorem afterAdmit_events (req : Request) (env : Env) (ω : Oracle) (σ : Store) :
    ((afterAdmit req env ω σ).2.2).all isStageEvent = true := by
  unfold afterAdmit validateStage generateStage
  repeat' split
  all_goals rfl

/-- The stage 1 rejection condition is the negation of `authorized`. -/
theorem authRejected_eq (req : Request) (env : Env) :
    authRejected req env = !authorized req env := by
  cases hk : req.apiKey <;> cases hd : env.demoApiKey <;>
    simp [authRejected, authorized, apiKeyMatches, headerTruthy, hk, hd,
      Bool.not_or, Bool.not_and, bne]

/-- Unpacking of `notAdmissionKind`. -/
theorem notAdmissionKind_ne {o : Option String} (h : notAdmissionKind o = true) :
    o ≠ some "unauthorized" ∧ o ≠ some "request_too_large" ∧
    o ≠ some "daily_budget_exceeded" := by
  simp only [notAdmissionKind, Bool.and_eq_true, bne_iff_ne] at h
  exact ⟨h.1.1.1.1, h.1.1.1.2, h.1.1.2⟩

/-! ## C1 -/

/-- C1: a `POST /api/generate` request that passes the size check is
admitted past the authentication stage iff it is same-origin or its
`x-api-key` equals the configured secret; otherwise it gets the 401
`unauthorized` response before any later stage runs (store untouched,
no external action). -/
theorem c1_auth_gate (req : Request) (env : Env) (ω : Oracle) (σ : Store)
    (hm : req.method = "POST") (hp : req.pathname = "/api/generate")
    (hs : sizeExceeded req.contentLength = false) :
    (errKindOf (fetch req env ω σ).1 = some "unauthorized" ↔ authorized req env = false)
    ∧ (authorized req env = false →
        fetch req env ω σ =
          (.ok ⟨401, [("content-type", "application/json")], .jsonErr "unauthorized" none⟩,
            σ, [])) := by
  have hne := (notAdmissionKind_ne (afterAdmit_kind req env ω σ)).1
  unfold fetch generatePipeline
  rw [authRejected_eq]
  by_cases hA : authorized req env
  · simp only [hm, hp, hs, hA, decide_True, Bool.and_self, if_true, Bool.not_true,
      Bool.false_eq_true, if_false]
    constructor
    · split
      · split
        · simp [errKindOf, jsonErrResp]
        · split
          · simp [errKindOf, jsonErrResp]
          · split
            · simp [errKindOf, jsonErrResp]
            · simpa using hne
      · simpa using hne
    · intro h
      simp at h
  · rw [Bool.not_eq_true] at hA
    simp only [hm, hp, hs, hA, decide_True, Bool.and_self, if_true, Bool.not_false, if_false]
    constructor
    · simp [errKindOf]
    · intro _
      rfl

/-- Witness for C1 at a concrete cross-origin request with no
credential: it is refused with the 401 response. -/
theorem c1_auth_gate_witness :
    errKindOf (fetch { demoRequest (promptBody "hi there") with origin := none } envPlain
      (okOracle "x" []) emptyStore).1 = some "unauthorized" :=
  (c1_auth_gate { demoRequest (promptBody "hi there") with origin := none } envPlain
    (okOracle "x" []) emptyStore rfl rfl rfl).1.mpr (by decide)

/-! ## C9 -/

/-- C9: without a `content-length` header the size-check stage admits
the request whatever the body size, and the `request_too_large`
rejection is unreachable. -/
theorem c9_size_gate (req : Request) (env : Env) (ω : Oracle) (σ : Store)
    (hm : req.method = "POST") (hp : req.pathname = "/api/generate")
    (hcl : req.contentLength = none) :
    sizeExceeded req.contentLength = false ∧
    errKindOf (fetch req env ω σ).1 ≠ some "request_too_large" := by
  have hs : sizeExceeded req.contentLength = false := by rw [hcl]; rfl
  refine ⟨hs, ?_⟩
  have hne := (notAdmissionKind_ne (afterAdmit_kind req env ω σ)).2.1
  unfold fetch generatePipeline
  simp only [hm, hp, hs, decide_True, Bool.and_self, if_true, Bool.false_eq_true, if_false]
  split
  · simp [errKindOf]
  · split
    · split
      · simp [errKindOf]
      · split
        · simp [errKindOf, jsonErrResp]
        · split
          · simp [errKindOf, jsonErrResp]
          · simpa using hne
    · simpa using hne

/-- Witness for C9: a concrete request with no `content-length` and a
parsed body passes the size check and is not rejected as too large. -/
theorem c9_size_gate_witness :
    sizeExceeded (demoRequest (promptBody "hi there")).contentLength = false ∧
    errKindOf (fetch (demoRequest (promptBody "hi there")) envPlain
      (okOracle "x" []) emptyStore).1 ≠ some "request_too_large" :=
  c9_size_gate (demoRequest (promptBody "hi there")) envPlain
    (okOracle "x" []) emptyStore rfl rfl rfl

/-! ## C6 -/

/-- C6: the budget ledger is only ever read after both rate-limit
counters were consumed (the trace starts with the per-IP and global
increments), and a `daily_budget_exceeded` rejection leaves the store
untouched with exactly those three external actions performed. -/
theorem c6_budget_after_increments (req : Request) (env : Env) (ω : Oracle) (σ : Store) :
    (∀ d, Event.readBudget d ∈ (fetch req env ω σ).2.2 →
      ∃ rest, (fetch req env ω σ).2.2 =
        .incIp (req.cfConnectingIp.getD "unknown") :: .incGlobal ::
          .readBudget ω.budgetDay :: rest)
    ∧ (errKindOf (fetch req env ω σ).1 = some "daily_budget_exceeded" →
        (fetch req env ω σ).2.2 =
          [.incIp (req.cfConnectingIp.getD "unknown"), .incGlobal,
            .readBudget ω.budgetDay]
        ∧ (fetch req env ω σ).2.1 = σ) := by
  have hkind := (notAdmissionKind_ne (afterAdmit_kind req env ω σ)).2.2
  have hev := afterAdmit_events req env ω σ
  rw [List.all_eq_true] at hev
  refine ⟨fun d hd => ?_, fun hk => ?_⟩
  · revert hd
    unfold fetch generatePipeline
    repeat' split
    all_goals intro hd
    all_goals try exact ⟨_, rfl⟩
    all_goals first
      | (simp at hd; done)
      | (simpa [isStageEvent] using hev _ hd)
      | (revert hd; cases hL : List.lookup (jsSlice1 req.pathname) σ.art <;> simp [hL])
  · revert hk
    unfold fetch generatePipeline
    repeat' split
    all_goals intro hk
    all_goals try exact ⟨rfl, rfl⟩
    all_goals first
      | (simp [errKindOf, jsonErrResp] at hk; done)
      | (exact absurd hk hkind)
      | (revert hk; cases hL : List.lookup (jsSlice1 req.pathname) σ.art <;>
          simp [hL, errKindOf])

/-- Witness for C6: with the ledger already at the cap, the request is
rejected by the budget check and both counters were consumed first. -/
theorem c6_budget_after_increments_witness :
    (fetch (demoRequest (promptBody "a calm lake at dawn")) envUpstash (okOracle "x" [1])
        ⟨[("spend:2025-06-01", DAILY_SPENDING_CAP)], []⟩).2.2 =
      [.incIp "203.0.113.7", .incGlobal, .readBudget "2025-06-01"]
    ∧ (fetch (demoRequest (promptBody "a calm lake at dawn")) envUpstash (okOracle "x" [1])
        ⟨[("spend:2025-06-01", DAILY_SPENDING_CAP)], []⟩).2.1 =
      ⟨[("spend:2025-06-01", DAILY_SPENDING_CAP)], []⟩ :=
  (c6_budget_after_increments (demoRequest (promptBody "a calm lake at dawn")) envUpstash
    (okOracle "x" [1]) ⟨[("spend:2025-06-01", DAILY_SPENDING_CAP)], []⟩).2 (by decide)

/-! ## Admission: reaching stage 3 -/

/-- Hypotheses under which a request reaches stage 3 (body parsing):
right method and path, size check passed, authentication passed, and
when the counter store is configured, both limiters allowed the
request and the ledger is below the cap. -/
def Admitted (req : Request) (env : Env) (ω : Oracle) (σ : Store) : Prop :=
  req.method = "POST" ∧ req.pathname = "/api/generate" ∧
  sizeExceeded req.contentLength = false ∧
  authorized req env = true ∧
  (env.upstashConfigured = true →
    ω.ipAllow = true ∧ ω.globalAllow = true ∧
    dailySpendOf σ ω.budgetDay < DAILY_SPENDING_CAP)

/-- The events of stages 0-2 for an admitted request. -/
def admissionEvents (req : Request) (env : Env) (ω : Oracle) : List Event :=
  if env.upstashConfigured then
    [.incIp (req.cfConnectingIp.getD "unknown"), .incGlobal, .readBudget ω.budgetDay]
  else []

/-- An admitted request runs stages 3-9. -/
theorem admitted_fetch (req : Request) (env : Env) (ω : Oracle) (σ : Store)
    (h : Admitted req env ω σ) :
    fetch req env ω σ =
      ((afterAdmit req env ω σ).1, (afterAdmit req env ω σ).2.1,
        admissionEvents req env ω ++ (afterAdmit req env ω σ).2.2) := by
  obtain ⟨hm, hp, hs, hA, hUp⟩ := h
  unfold fetch generatePipeline admissionEvents
  rw [authRejected_eq]
  simp only [hm, hp, hs, hA, decide_True, Bool.and_self, if_true, Bool.not_true,
    Bool.false_eq_true, if_false]
  split
  · next hU =>
    obtain ⟨hip, hg, hb⟩ := hUp hU
    simp [hip, hg, not_le.mpr hb]
  · simp

/-- A body with a string `prompt` field is an object, hence not
`null`. -/
theorem getField_str_isNull {body : Json} {k s : String}
    (h : body.getField k = some (.str s)) : body.isNull = false := by
  cases body with
  | null => simp [Json.getField] at h
  | bool b => rfl
  | num n => rfl
  | str s2 => rfl
  | arr es => rfl
  | obj fs => rfl

/-! ## C3 -/

/-- Conjunction of the two length checks of stage 5, as the source
states them. -/
def lengthChecksPass (p : String) : Bool :=
  !(decide (p = "") || decide (p.length < MIN_PROMPT_LENGTH)) &&
  !(decide (p.length > MAX_PROMPT_LENGTH))

/-- C3: an admitted request whose trimmed prompt is shorter than 3 is
rejected 400 `invalid_prompt`, longer than 500 rejected 400
`prompt_too_long`, both before any generation call; trimmed lengths
exactly 3 and exactly 500 pass both length checks. -/
theorem c3_length_gate (req : Request) (env : Env) (ω : Oracle) (σ : Store)
    (h : Admitted req env ω σ) (body : Json) (s : String)
    (hb : req.jsonBody = some body)
    (hps : body.getField "prompt" = some (.str s)) :
    ((jsTrim s).length < 3 →
      errKindOf (fetch req env ω σ).1 = some "invalid_prompt" ∧
      statusOf (fetch req env ω σ).1 = some 400 ∧
      ∀ p, Event.callGenerate p ∉ (fetch req env ω σ).2.2)
    ∧ (500 < (jsTrim s).length →
      errKindOf (fetch req env ω σ).1 = some "prompt_too_long" ∧
      statusOf (fetch req env ω σ).1 = some 400 ∧
      ∀ p, Event.callGenerate p ∉ (fetch req env ω σ).2.2)
    ∧ ((jsTrim s).length = 3 → lengthChecksPass (jsTrim s) = true)
    ∧ ((jsTrim s).length = 500 → lengthChecksPass (jsTrim s) = true) := by
  have hAdm : ∀ p, Event.callGenerate p ∉ admissionEvents req env ω := by
    intro p
    unfold admissionEvents
    split <;> simp
  rw [admitted_fetch req env ω σ h]
  simp only [afterAdmit, hb, getField_str_isNull hps, Bool.false_eq_true, if_false, hps]
  refine ⟨fun hlen => ?_, fun hlen => ?_, fun hlen => ?_, fun hlen => ?_⟩
  · have hcond : (decide (jsTrim s = "") || decide ((jsTrim s).length < MIN_PROMPT_LENGTH)) = true := by
      simp [MIN_PROMPT_LENGTH, hlen]
    unfold validateStage
    rw [hcond]
    refine ⟨rfl, rfl, fun p hme => ?_⟩
    simp only [if_true, List.append_nil] at hme
    exact hAdm p hme
  · have hne : jsTrim s ≠ "" := by
      intro e
      rw [e] at hlen
      simp at hlen
    have h3 : ¬ (jsTrim s).length < MIN_PROMPT_LENGTH := by
      unfold MIN_PROMPT_LENGTH
      omega
    have hcond : (decide (jsTrim s = "") || decide ((jsTrim s).length < MIN_PROMPT_LENGTH)) = false := by
      simp [hne, h3]
    unfold validateStage
    rw [hcond]
    simp only [Bool.false_eq_true, if_false]
    rw [if_pos (show (jsTrim s).length > MAX_PROMPT_LENGTH by
      unfold MAX_PROMPT_LENGTH; omega)]
    refine ⟨rfl, rfl, fun p hme => ?_⟩
    simp only [List.append_nil] at hme
    exact hAdm p hme
  · have hne : jsTrim s ≠ "" := by
      intro e
      rw [e] at hlen
      simp at hlen
    simp [lengthChecksPass, hne, hlen, MIN_PROMPT_LENGTH, MAX_PROMPT_LENGTH]
  · have hne : jsTrim s ≠ "" := by
      intro e
      rw [e] at hlen
      simp at hlen
    simp [lengthChecksPass, hne, hlen, MIN_PROMPT_LENGTH, MAX_PROMPT_LENGTH]

/-- Witness for C3 at the concrete prompt `"ab"` (trimmed length 2):
400 `invalid_prompt` and no generation call. -/
theorem c3_length_gate_witness :
    errKindOf (fetch (demoRequest (promptBody "ab")) envPlain (okOracle "x" [1]) emptyStore).1
      = some "invalid_prompt" ∧
    statusOf (fetch (demoRequest (promptBody "ab")) envPlain (okOracle "x" [1]) emptyStore).1
      = some 400 ∧
    ∀ p, Event.callGenerate p ∉
      (fetch (demoRequest (promptBody "ab")) envPlain (okOracle "x" [1]) emptyStore).2.2 :=
  (c3_length_gate (demoRequest (promptBody "ab")) envPlain (okOracle "x" [1]) emptyStore
    ⟨rfl, rfl, rfl, rfl, fun h => nomatch h⟩ _ "ab" rfl rfl).1 (by decide)

/-! ## C2 -/

/-- A 501-character prompt that starts with the denylisted word
`"kill"`. -/
def prompt501 : String := "kill" ++ ⟨List.replicate 497 'a'⟩

set_option maxRecDepth 100000 in
/-- Counterexample to C2 as stated: this prompt contains a denylisted
word (case-insensitively), yet the pipeline returns 400
`prompt_too_long`, not `inappropriate_prompt`, because the length
check runs first. -/
theorem c2_counterexample :
    jsIncludes (jsToLower prompt501) "kill" = true ∧
    errKindOf (fetch (demoRequest (promptBody prompt501)) envPlain
      (okOracle "x" [1]) emptyStore).1 = some "prompt_too_long" ∧
    errKindOf (fetch (demoRequest (promptBody prompt501)) envPlain
      (okOracle "x" [1]) emptyStore).1 ≠ some "inappropriate_prompt" := by
  refine ⟨by decide, by decide, by decide⟩

/-- If `sub` is a true prefix test, it is no longer than the list. -/
theorem isPrefixOf_length {sub l : List Char} (h : sub.isPrefixOf l = true) :
    sub.length ≤ l.length := by
  induction sub generalizing l with
  | nil => simp
  | cons a as ih =>
    cases l with
    | nil => simp [List.isPrefixOf] at h
    | cons b bs =>
      simp only [List.isPrefixOf, Bool.and_eq_true] at h
      simpa using Nat.succ_le_succ (ih h.2)

/-- A contained sublist is no longer than its container. -/
theorem subListAt_length {l sub : List Char} (h : subListAt l sub = true) :
    sub.length ≤ l.length := by
  induction l with
  | nil =>
    unfold subListAt at h
    split at h
    · exact isPrefixOf_length (by assumption)
    · simp at h
  | cons b bs ih =>
    unfold subListAt at h
    split at h
    · exact isPrefixOf_length (by assumption)
    · exact Nat.le_succ_of_le (ih h)

/-- Every denylisted word has at least 3 characters. -/
theorem blocked_words_length : ∀ w ∈ BLOCKED_WORDS, 3 ≤ w.data.length := by decide

/-- A matching word makes `find?` succeed. -/
theorem find?_isSome_of {α : Type} {p : α → Bool} {l : List α} {x : α}
    (hx : x ∈ l) (hp : p x = true) : (l.find? p).isSome = true := by
  induction l with
  | nil => cases hx
  | cons a t ih =>
    rw [List.find?]
    cases hpa : p a with
    | true => rfl
    | false =>
      rcases List.mem_cons.mp hx with rfl | hxt
      · rw [hpa] at hp; cases hp
      · exact ih hxt

/-- C2 amended: among admitted requests whose trimmed prompt passes
the length bound (at most 500 characters), any prompt containing a
denylisted word case-insensitively is rejected 400
`inappropriate_prompt` without calling the Generation Client.  (A
longer prompt is rejected as `prompt_too_long` first, see the
counterexample.) -/
theorem c2_content_filter (req : Request) (env : Env) (ω : Oracle) (σ : Store)
    (h : Admitted req env ω σ) (body : Json) (s : String)
    (hb : req.jsonBody = some body)
    (hps : body.getField "prompt" = some (.str s))
    (hlen : (jsTrim s).length ≤ 500)
    (w : String) (hw : w ∈ BLOCKED_WORDS)
    (hinc : jsIncludes (jsToLower (jsTrim s)) w = true) :
    errKindOf (fetch req env ω σ).1 = some "inappropriate_prompt" ∧
    statusOf (fetch req env ω σ).1 = some 400 ∧
    ∀ p, Event.callGenerate p ∉ (fetch req env ω σ).2.2 := by
  have hAdm : ∀ p, Event.callGenerate p ∉ admissionEvents req env ω := by
    intro p
    unfold admissionEvents
    split <;> simp
  have hdl : (jsToLower (jsTrim s)).data.length = (jsTrim s).data.length := by
    simp [jsToLower]
  have hwl := blocked_words_length w hw
  have hsl := subListAt_length hinc
  have hlen3 : 3 ≤ (jsTrim s).data.length := by omega
  have hlen' : (jsTrim s).length = (jsTrim s).data.length := rfl
  have hne : jsTrim s ≠ "" := by
    intro e
    rw [e] at hlen3
    simp at hlen3
  have hcond : (decide (jsTrim s = "") || decide ((jsTrim s).length < MIN_PROMPT_LENGTH)) = false := by
    simp only [MIN_PROMPT_LENGTH, Bool.or_eq_false_iff, decide_eq_false_iff_not]
    exact ⟨hne, by omega⟩
  rw [admitted_fetch req env ω σ h]
  simp only [afterAdmit, hb, getField_str_isNull hps, Bool.false_eq_true, if_false, hps]
  unfold validateStage
  rw [hcond]
  simp only [Bool.false_eq_true, if_false]
  rw [if_neg (show ¬ (jsTrim s).length > MAX_PROMPT_LENGTH by unfold MAX_PROMPT_LENGTH; omega)]
  rw [if_pos (find?_isSome_of hw hinc)]
  refine ⟨rfl, rfl, fun p hme => ?_⟩
  simp only [List.append_nil] at hme
  exact hAdm p hme

/-- Witness for the amended C2 at the concrete prompt
`"a nsfw scene"`. -/
theorem c2_content_filter_witness :
    errKindOf (fetch (demoRequest (promptBody "a nsfw scene")) envPlain
      (okOracle "x" [1]) emptyStore).1 = some "inappropriate_prompt" ∧
    statusOf (fetch (demoRequest (promptBody "a nsfw scene")) envPlain
      (okOracle "x" [1]) emptyStore).1 = some 400 ∧
    ∀ p, Event.callGenerate p ∉
      (fetch (demoRequest (promptBody "a nsfw scene")) envPlain
        (okOracle "x" [1]) emptyStore).2.2 :=
  c2_content_filter (demoRequest (promptBody "a nsfw scene")) envPlain
    (okOracle "x" [1]) emptyStore ⟨rfl, rfl, rfl, rfl, fun h => nomatch h⟩
    _ "a nsfw scene" rfl rfl (by decide) "nsfw" (by decide) (by decide)

/-! ## C5 -/

/-- Counterexample to C5 as stated: generation succeeds, the latest
write fails with a message containing `"429"`, and the caller receives
429 `ai_provider_rate_limit` — an error, but not a 5xx
`generation_failed`-class response. -/
theorem c5_counterexample :
    statusOf (fetch (demoRequest (promptBody "a calm lake at dawn")) envPlain
      { okOracle "iso" [1] with putLatestErr := some "429" } emptyStore).1 = some 429 ∧
    errKindOf (fetch (demoRequest (promptBody "a calm lake at dawn")) envPlain
      { okOracle "iso" [1] with putLatestErr := some "429" } emptyStore).1
      = some "ai_provider_rate_limit" ∧
    (∀ n, statusOf (fetch (demoRequest (promptBody "a calm lake at dawn")) envPlain
      { okOracle "iso" [1] with putLatestErr := some "429" } emptyStore).1 = some n →
      ¬ (500 ≤ n ∧ n < 600)) := by
  refine ⟨by decide, by decide, ?_⟩
  intro n hn
  have : n = 429 := by
    have h429 : statusOf (fetch (demoRequest (promptBody "a calm lake at dawn")) envPlain
        { okOracle "iso" [1] with putLatestErr := some "429" } emptyStore).1 = some 429 := by
      decide
    rw [h429] at hn
    exact (Option.some.injEq _ _ ▸ hn).symm
  omega

/-- The stage 7 error mapping never yields a success status. -/
theorem mapGenError_status (m : String) : (mapGenError m).status ≠ 200 := by
  unfold mapGenError jsonErrResp
  repeat' split
  all_goals simp

/-- A prompt that survives stages 4-6. -/
def validPrompt (p : String) : Bool :=
  lengthChecksPass p &&
  !(BLOCKED_WORDS.find? (fun w => jsIncludes (jsToLower p) w)).isSome

/-- Behaviour of stages 6-9 when generation succeeds: both writes are
attempted; any write failure routes the response through the stage 7
error mapping (never a 200); a 200 implies both writes completed and
both keys hold the generated bytes. -/
theorem generateStage_spec (req : Request) (env : Env) (ω : Oracle) (σ : Store)
    (prompt : String) (bytes : List Nat)
    (hgen : ω.gen = .ok bytes) (hsize : bytes.length ≤ 5 * 1024 * 1024)
    (hkey : ("art/" ++ fmtTs ω.nowIso ++ ".jpg") ≠ "art/latest.jpg") :
    (Event.putAttempt ("art/" ++ fmtTs ω.nowIso ++ ".jpg") bytes
        ∈ (generateStage req env ω σ prompt).2.2 ∧
      Event.putAttempt "art/latest.jpg" bytes ∈ (generateStage req env ω σ prompt).2.2) ∧
    (∀ m, ω.putHistoryErr = some m →
      (generateStage req env ω σ prompt).1 = .ok (mapGenError m)) ∧
    (ω.putHistoryErr = none → ∀ m, ω.putLatestErr = some m →
      (generateStage req env ω σ prompt).1 = .ok (mapGenError m)) ∧
    ((ω.putHistoryErr ≠ none ∨ ω.putLatestErr ≠ none) →
      statusOf (generateStage req env ω σ prompt).1 ≠ some 200) ∧
    (statusOf (generateStage req env ω σ prompt).1 = some 200 →
      ω.putHistoryErr = none ∧ ω.putLatestErr = none ∧
      (generateStage req env ω σ prompt).2.1.art.lookup ("art/" ++ fmtTs ω.nowIso ++ ".jpg")
        = some ⟨bytes, "image/jpeg", "public, max-age=31536000, immutable"⟩ ∧
      (generateStage req env ω σ prompt).2.1.art.lookup "art/latest.jpg"
        = some ⟨bytes, "image/jpeg", "no-store, max-age=0"⟩) := by
  have hkeyb : (("art/" ++ fmtTs ω.nowIso ++ ".jpg") == "art/latest.jpg") = false := by
    simp [hkey]
  unfold generateStage
  simp only [hgen]
  rw [if_neg (show ¬ bytes.length > 5 * 1024 * 1024 by omega)]
  cases hH : ω.putHistoryErr <;> cases hLa : ω.putLatestErr <;>
    cases hU : env.upstashConfigured <;>
    simp [hH, hLa, hU, putArt, List.lookup, hkeyb, mapGenError_status,
      statusOf, errKindOf]

/-- C5 amended: for an admitted request with a valid prompt and a
successful generation, both artifact writes are attempted; if either
fails the caller receives the response of the stage 7 error mapping
applied to the failure message (a non-200 error, but 402/429/400 are
possible alongside 500/504), and a 200 is returned only when both
writes have completed, in which case both keys hold the generated
bytes. -/
theorem c5_persistence (req : Request) (env : Env) (ω : Oracle) (σ : Store)
    (h : Admitted req env ω σ) (body : Json) (s : String)
    (hb : req.jsonBody = some body)
    (hps : body.getField "prompt" = some (.str s))
    (hval : validPrompt (jsTrim s) = true)
    (bytes : List Nat) (hgen : ω.gen = .ok bytes)
    (hsize : bytes.length ≤ 5 * 1024 * 1024)
    (hkey : ("art/" ++ fmtTs ω.nowIso ++ ".jpg") ≠ "art/latest.jpg") :
    (Event.putAttempt ("art/" ++ fmtTs ω.nowIso ++ ".jpg") bytes ∈ (fetch req env ω σ).2.2 ∧
      Event.putAttempt "art/latest.jpg" bytes ∈ (fetch req env ω σ).2.2) ∧
    (∀ m, ω.putHistoryErr = some m → (fetch req env ω σ).1 = .ok (mapGenError m)) ∧
    (ω.putHistoryErr = none → ∀ m, ω.putLatestErr = some m →
      (fetch req env ω σ).1 = .ok (mapGenError m)) ∧
    ((ω.putHistoryErr ≠ none ∨ ω.putLatestErr ≠ none) →
      statusOf (fetch req env ω σ).1 ≠ some 200) ∧
    (statusOf (fetch req env ω σ).1 = some 200 →
      ω.putHistoryErr = none ∧ ω.putLatestErr = none ∧
      (fetch req env ω σ).2.1.art.lookup ("art/" ++ fmtTs ω.nowIso ++ ".jpg")
        = some ⟨bytes, "image/jpeg", "public, max-age=31536000, immutable"⟩ ∧
      (fetch req env ω σ).2.1.art.lookup "art/latest.jpg"
        = some ⟨bytes, "image/jpeg", "no-store, max-age=0"⟩) := by
  have hspec := generateStage_spec req env ω σ (jsTrim s) bytes hgen hsize hkey
  have hval2 : lengthChecksPass (jsTrim s) = true ∧
      (BLOCKED_WORDS.find? (fun w => jsIncludes (jsToLower (jsTrim s)) w)).isSome = false := by
    simpa [validPrompt, Bool.and_eq_true, Bool.not_eq_true'] using hval
  have hlc : (decide (jsTrim s = "") || decide ((jsTrim s).length < MIN_PROMPT_LENGTH)) = false
      ∧ decide ((jsTrim s).length > MAX_PROMPT_LENGTH) = false := by
    simpa [lengthChecksPass, Bool.and_eq_true, Bool.not_eq_true'] using hval2.1
  rw [admitted_fetch req env ω σ h]
  simp only [afterAdmit, hb, getField_str_isNull hps, Bool.false_eq_true, if_false, hps]
  unfold validateStage
  rw [hlc.1]
  simp only [Bool.false_eq_true, if_false]
  rw [if_neg (of_decide_eq_false hlc.2)]
  rw [hval2.2]
  simp only [Bool.false_eq_true, if_false]
  exact ⟨⟨List.mem_append_right _ hspec.1.1, List.mem_append_right _ hspec.1.2⟩,
    hspec.2.1, hspec.2.2.1, hspec.2.2.2.1, hspec.2.2.2.2⟩

/-- Witness for the amended C5: latest write fails with a generic
message; both writes were attempted and the response is not a 200. -/
theorem c5_persistence_witness :
    Event.putAttempt "art/iso.jpg" [1] ∈
      (fetch (demoRequest (promptBody "a calm lake at dawn")) envPlain
        { okOracle "iso" [1] with putLatestErr := some "disk full" } emptyStore).2.2 ∧
    statusOf (fetch (demoRequest (promptBody "a calm lake at dawn")) envPlain
        { okOracle "iso" [1] with putLatestErr := some "disk full" } emptyStore).1
      ≠ some 200 :=
  have h := c5_persistence (demoRequest (promptBody "a calm lake at dawn")) envPlain
    { okOracle "iso" [1] with putLatestErr := some "disk full" } emptyStore
    ⟨rfl, rfl, rfl, rfl, fun hc => nomatch hc⟩ _ "a calm lake at dawn" rfl rfl (by decide)
    [1] rfl (by decide) (by decide)
  ⟨h.1.1, h.2.2.2.1 (Or.inr (by decide))⟩

/-! ## C8 -/

/-- C8 (code bug): `worker.js` has no `OPTIONS` branch, so every
`OPTIONS` request falls through to the default 404 — there is no 204
CORS preflight response, contradicting the spec and the handler shown
in the repository README. -/
theorem c8_options_404 (req : Request) (env : Env) (ω : Oracle) (σ : Store)
    (hm : req.method = "OPTIONS") :
    fetch req env ω σ = (.ok ⟨404, [], .text "Not found"⟩, σ, []) := by
  unfold fetch
  rw [hm]
  simp

/-- Evaluation of the handler at a concrete `OPTIONS /api/generate`
preflight: 404 `Not found`, not 204. -/
theorem c8_options_404_witness :
    fetch { demoRequest none with method := "OPTIONS" } envPlain (okOracle "x" []) emptyStore
      = (.ok ⟨404, [], .text "Not found"⟩, emptyStore, []) :=
  c8_options_404 { demoRequest none with method := "OPTIONS" } envPlain (okOracle "x" [])
    emptyStore rfl

/-! ## C10 -/

/-- Stages 4-9 return responses, never exceptions. -/
theorem validateStage_no_throw (req : Request) (env : Env) (ω : Oracle) (σ : Store)
    (p : String) : ∀ m, (validateStage req env ω σ p).1 ≠ .typeError m := by
  intro m
  unfold validateStage generateStage
  repeat' split
  all_goals simp

/-- Stage 3 onward can only throw via the property access on a `null`
body or via the `.trim()` call on a truthy non-string `prompt`
field. -/
theorem afterAdmit_no_throw (req : Request) (env : Env) (ω : Oracle) (σ : Store)
    (hsafe : ∀ b, req.jsonBody = some b → b.isNull = false ∧
      ((∃ t, b.getField "prompt" = some (.str t)) ∨ jsTruthy (b.getField "prompt") = false)) :
    ∀ m, (afterAdmit req env ω σ).1 ≠ .typeError m := by
  intro m
  unfold afterAdmit
  repeat' split
  all_goals try simp
  all_goals try exact validateStage_no_throw req env ω σ _ m
  all_goals have hnn := hsafe _ (by assumption)
  all_goals simp_all

/-- C10: a truthy non-string `prompt` value (here the JSON number 42)
escapes the handler as an uncaught `TypeError` at the `.trim()` call —
no specified error response is produced.  A body that parses to the
JSON literal `null` likewise escapes as an uncaught `TypeError`, at
the `body.prompt` property access itself.  Requests whose body is not
`null` and whose `prompt` field is a string, absent, or falsy never
throw. -/
theorem c10_nonstring_prompt :
    (fetch (demoRequest (some (.obj [("prompt", .num (42 * 2 ^ 61))]))) envPlain
        (okOracle "x" []) emptyStore
      = (.typeError "promptValue.trim is not a function", emptyStore, [])) ∧
    (fetch (demoRequest (some .null)) envPlain (okOracle "x" []) emptyStore
      = (.typeError "cannot read properties of null", emptyStore, [])) ∧
    (∀ req env ω σ, (∀ b, req.jsonBody = some b → b.isNull = false ∧
        ((∃ t, b.getField "prompt" = some (.str t)) ∨ jsTruthy (b.getField "prompt") = false)) →
      ∀ m, (fetch req env ω σ).1 ≠ .typeError m) := by
  refine ⟨rfl, rfl, ?_⟩
  intro req env ω σ hsafe m
  unfold fetch generatePipeline
  repeat' split
  all_goals try simp
  all_goals try exact afterAdmit_no_throw req env ω σ hsafe m
  all_goals cases hL : List.lookup (jsSlice1 req.pathname) σ.art <;> simp [hL]

/-- Witness for C10: applying its safety half at a concrete request
with a string prompt. -/
theorem c10_nonstring_prompt_witness :
    ∀ m, (fetch (demoRequest (promptBody "hi there")) envPlain
      (okOracle "x" []) emptyStore).1 ≠ .typeError m :=
  c10_nonstring_prompt.2.2 (demoRequest (promptBody "hi there")) envPlain
    (okOracle "x" []) emptyStore
    (fun b hb => by cases hb; exact ⟨rfl, Or.inl ⟨"hi there", rfl⟩⟩)

/-! ## C4 -/

/-- Pure model of the ledger over a day of consecutive successful
generations: `spendAux n v` runs `n` further generations starting from
ledger value `v`, checking the budget gate before each one, and
returns the final ledger value (or `none` if some generation along the
way would have been rejected). -/
def spendAux : Nat → Nat → Option Nat
  | 0, v => some v
  | n + 1, v =>
    if v < DAILY_SPENDING_CAP then spendAux n (faddS v costPerImage) else none

/-- The fixed request of the C4 scenario. -/
def c4Req : Request := demoRequest (promptBody "a calm lake at dawn")

/-- The fixed oracle of the C4 scenario: every external call succeeds,
all on UTC day 2025-06-01. -/
def c4Oracle : Oracle := okOracle "2025-06-01T00:00:00.000Z" [1]

/-- `n` consecutive `POST /api/generate` requests through the full
pipeline, threading the store; the flag records whether every request
returned 200. -/
def c4Run : Nat → Bool × Store
  | 0 => (true, emptyStore)
  | n + 1 =>
    let prev := c4Run n
    let r := fetch c4Req envUpstash c4Oracle prev.2
    (prev.1 && (statusOf r.1 == some 200), r.2.1)

/-- Reading back the spend key just written. -/
theorem dailySpendOf_cons (w : Nat) (sp : List (String × Nat))
    (a : List (String × ArtObject)) :
    dailySpendOf ⟨("spend:2025-06-01", w) :: sp, a⟩ "2025-06-01" = w := by
  unfold dailySpendOf
  simp [List.lookup]

/-- One successful step of the C4 scenario: below the cap, the request
returns 200 and the ledger advances by one binary64 addition of
`0.004`. -/
theorem c4_step (σ : Store) (v : Nat) (hv : dailySpendOf σ "2025-06-01" = v)
    (hlt : v < DAILY_SPENDING_CAP) :
    statusOf (fetch c4Req envUpstash c4Oracle σ).1 = some 200 ∧
    errKindOf (fetch c4Req envUpstash c4Oracle σ).1 = none ∧
    dailySpendOf (fetch c4Req envUpstash c4Oracle σ).2.1 "2025-06-01"
      = faddS v costPerImage := by
  have hadm : Admitted c4Req envUpstash c4Oracle σ :=
    ⟨rfl, rfl, rfl, rfl, fun _ => ⟨rfl, rfl, hv ▸ hlt⟩⟩
  have hfetch : fetch c4Req envUpstash c4Oracle σ =
      (.ok ⟨200, [("content-type", "application/json")],
          .jsonOk "https://gallery.example.com/art/latest.jpg"
            "https://gallery.example.com/art/2025-06-01T00-00-00-000Z.jpg"
            "a calm lake at dawn"⟩,
        { spend := ("spend:2025-06-01",
              faddS (dailySpendOf σ "2025-06-01") costPerImage) :: σ.spend
          art := ("art/latest.jpg",
                ⟨[1], "image/jpeg", "no-store, max-age=0"⟩) ::
              ("art/2025-06-01T00-00-00-000Z.jpg",
                ⟨[1], "image/jpeg", "public, max-age=31536000, immutable"⟩) :: σ.art },
        [.incIp "203.0.113.7", .incGlobal, .readBudget "2025-06-01",
          .callGenerate "a calm lake at dawn",
          .writeSpend "2025-06-01" (faddS (dailySpendOf σ "2025-06-01") costPerImage),
          .putAttempt "art/2025-06-01T00-00-00-000Z.jpg" [1],
          .putAttempt "art/latest.jpg" [1]]) := by
    rw [admitted_fetch _ _ _ _ hadm]
    rfl
  rewrite [hfetch, hv]
  exact ⟨rfl, rfl, dailySpendOf_cons _ _ _⟩

/-- Peeling the last generation off a ledger run. -/
theorem spendAux_succ (n : Nat) (v : Nat) :
    spendAux (n + 1) v =
      match spendAux n v with
      | some w => if w < DAILY_SPENDING_CAP then some (faddS w costPerImage) else none
      | none => none := by
  induction n generalizing v with
  | zero => rfl
  | succ n ih =>
    rw [show spendAux (n + 1 + 1) v =
      (if v < DAILY_SPENDING_CAP then spendAux (n + 1) (faddS v costPerImage) else none) from rfl]
    rw [show spendAux (n + 1) v =
      (if v < DAILY_SPENDING_CAP then spendAux n (faddS v costPerImage) else none) from rfl]
    split
    · exact ih (faddS v costPerImage)
    · rfl

/-- The pure ledger model tracks the full pipeline run: if `spendAux`
admits `n` generations ending at ledger value `v`, then `n` pipeline
requests all return 200 and leave the ledger at `v`. -/
theorem c4_invariant : ∀ n v, spendAux n 0 = some v →
    (c4Run n).1 = true ∧ dailySpendOf (c4Run n).2 "2025-06-01" = v := by
  intro n
  induction n with
  | zero =>
    intro v hv
    cases hv
    exact ⟨rfl, rfl⟩
  | succ n ih =>
    intro v hv
    rw [spendAux_succ] at hv
    cases hw : spendAux n 0 with
    | none =>
      rw [hw] at hv
      replace hv : (none : Option Nat) = some v := hv
      cases hv
    | some w =>
      rw [hw] at hv
      replace hv : (if w < DAILY_SPENDING_CAP then some (faddS w costPerImage)
          else none) = some v := hv
      have hlt : w < DAILY_SPENDING_CAP := by
        by_contra hge
        rw [if_neg hge] at hv
        cases hv
      rw [if_pos hlt] at hv
      obtain ⟨hok, hspend⟩ := ih w hw
      have hstep := c4_step (c4Run n).2 w hspend hlt
      refine ⟨?_, ?_⟩
      · show ((c4Run n).1 && (statusOf (fetch c4Req envUpstash c4Oracle (c4Run n).2).1
          == some 200)) = true
        rw [hok, hstep.1]
        rfl
      · show dailySpendOf (fetch c4Req envUpstash c4Oracle (c4Run n).2).2.1 "2025-06-01"
          = v
        rw [hstep.2.2]
        exact Option.some.inj hv

/-- Budget rejection step of the C4 scenario: at or above the cap the
request is rejected 429 `daily_budget_exceeded` with the ledger
untouched. -/
theorem c4_reject (σ : Store)
    (hge : dailySpendOf σ "2025-06-01" ≥ DAILY_SPENDING_CAP) :
    fetch c4Req envUpstash c4Oracle σ =
      (.ok (jsonErrResp 429 "daily_budget_exceeded"
          "Daily spending cap of $10 reached. Resets at midnight UTC."),
        σ, [.incIp "203.0.113.7", .incGlobal, .readBudget "2025-06-01"]) := by
  unfold fetch generatePipeline
  rw [show (decide (c4Req.method = "POST") && decide (c4Req.pathname = "/api/generate"))
    = true by decide]
  rw [show sizeExceeded c4Req.contentLength = false by decide]
  rw [show authRejected c4Req envUpstash = false by decide]
  rw [show envUpstash.upstashConfigured = true from rfl]
  rw [show c4Oracle.ipAllow = true from rfl, show c4Oracle.globalAllow = true from rfl]
  rw [show c4Oracle.budgetDay = "2025-06-01" from rfl]
  simp only [Bool.false_eq_true, if_false, if_true, Bool.not_true]
  rw [if_pos hge]
  rfl


set_option maxRecDepth 100000 in
set_option maxHeartbeats 4000000 in
/-- The exact ledger value after 2500 successful generations: each
generation performs one binary64 addition of the double nearest to
0.004, and the accumulated rounding error leaves the ledger at
23058430092135424000 / 2 ^ 61 ≈ 9.999999999999343, strictly below the
10.00 cap (which is 23058430092136939520 / 2 ^ 61 exactly). -/
theorem spendLedger2500 : spendAux 2500 0 = some 23058430092135424000 := by decide

/-- Counterexample to C4 as stated: 2500 successful generations within
one UTC day leave the ledger strictly below the cap — in binary64
arithmetic 2500 accumulated additions of 0.004 come to about
9.999999999999343, not 10.00 — so the 2501st request of that day
passes the budget check and returns 200, instead of being rejected
with `daily_budget_exceeded`. -/
theorem c4_counterexample :
    (c4Run 2500).1 = true ∧
    dailySpendOf (c4Run 2500).2 "2025-06-01" < DAILY_SPENDING_CAP ∧
    statusOf (fetch c4Req envUpstash c4Oracle (c4Run 2500).2).1 = some 200 ∧
    errKindOf (fetch c4Req envUpstash c4Oracle (c4Run 2500).2).1
      ≠ some "daily_budget_exceeded" := by
  have hinv := c4_invariant 2500 _ spendLedger2500
  have hlt : (23058430092135424000 : Nat) < DAILY_SPENDING_CAP := by decide
  have hstep := c4_step (c4Run 2500).2 _ hinv.2 hlt
  refine ⟨hinv.1, ?_, hstep.1, ?_⟩
  · rw [hinv.2]
    exact hlt
  · rw [hstep.2.1]
    simp

/-- C4 amended: with the counter store configured and one binary64
addition of 0.004 per success, the ledger stays below the 10.00 cap
through 2500 successful generations (so the 2501st request of the day
is admitted); it first satisfies the rejection condition after 2501
successes, so the 2502nd request of the day is rejected 429
`daily_budget_exceeded`. -/
theorem c4_amended :
    (c4Run 2501).1 = true ∧
    DAILY_SPENDING_CAP ≤ dailySpendOf (c4Run 2501).2 "2025-06-01" ∧
    errKindOf (fetch c4Req envUpstash c4Oracle (c4Run 2501).2).1
      = some "daily_budget_exceeded" ∧
    statusOf (fetch c4Req envUpstash c4Oracle (c4Run 2501).2).1 = some 429 := by
  have h2501 : spendAux 2501 0 = some 23067653464172277760 := by
    rw [spendAux_succ, spendLedger2500]
    decide
  have hinv := c4_invariant 2501 _ h2501
  have hge : dailySpendOf (c4Run 2501).2 "2025-06-01" ≥ DAILY_SPENDING_CAP := by
    rw [hinv.2]
    decide
  have hrej := c4_reject (c4Run 2501).2 hge
  refine ⟨hinv.1, hge, ?_, ?_⟩
  · rw [hrej]
    rfl
  · rw [hrej]
    rfl

/-! ## C7 -/

/-- The History Artifact key derived from a raw ISO timestamp. -/
def historyKeyOf (iso : String) : String := "art/" ++ fmtTs iso ++ ".jpg"

/-- A plain GET request for the given path. -/
def getReq (path : String) : Request :=
  { method := "GET"
    pathname := path
    host := "gallery.example.com"
    protocol := "https:"
    contentLength := none
    origin := none
    referer := none
    apiKey := none
    cfConnectingIp := none
    jsonBody := none }

/-- One successful generation of `g.2` stamped with `g.1`, as a store
transformer. -/
def genStep (g : String × List Nat) (σ : Store) : Store :=
  (fetch (demoRequest (promptBody "a calm lake at dawn")) envPlain
    (okOracle g.1 g.2) σ).2.1

/-- Sequential successful generations, oldest first. -/
def seqRun (gens : List (String × List Nat)) (σ : Store) : Store :=
  gens.foldl (fun s g => genStep g s) σ

/-- Full evaluation of one successful generation with the counter
store unconfigured: 200, no spend write, and both artifacts prepended
to the bucket. -/
theorem seq_step (σ : Store) (iso : String) (b : List Nat)
    (hsize : b.length ≤ 5 * 1024 * 1024) :
    fetch (demoRequest (promptBody "a calm lake at dawn")) envPlain (okOracle iso b) σ =
      (.ok ⟨200, [("content-type", "application/json")],
          .jsonOk "https://gallery.example.com/art/latest.jpg"
            ("https://gallery.example.com/" ++ historyKeyOf iso)
            "a calm lake at dawn"⟩,
        { σ with art := ("art/latest.jpg", ⟨b, "image/jpeg", "no-store, max-age=0"⟩) ::
            (historyKeyOf iso, ⟨b, "image/jpeg", "public, max-age=31536000, immutable"⟩)
            :: σ.art },
        [.callGenerate "a calm lake at dawn",
          .putAttempt (historyKeyOf iso) b, .putAttempt "art/latest.jpg" b]) := by
  have hadm : Admitted (demoRequest (promptBody "a calm lake at dawn")) envPlain
      (okOracle iso b) σ := ⟨rfl, rfl, rfl, rfl, fun hc => nomatch hc⟩
  rw [admitted_fetch _ _ _ _ hadm]
  have hred : afterAdmit (demoRequest (promptBody "a calm lake at dawn")) envPlain
      (okOracle iso b) σ =
      generateStage (demoRequest (promptBody "a calm lake at dawn")) envPlain
        (okOracle iso b) σ "a calm lake at dawn" := rfl
  rw [hred]
  unfold generateStage
  simp only [okOracle, envPlain]
  rw [if_neg (show ¬ b.length > 5 * 1024 * 1024 by omega)]
  rfl

/-- Serving a stored object: `GET /<key>` for a key under `art/`
streams the stored bytes with the stored metadata and a CORS header. -/
theorem get_art (σ : Store) (k : String) (env : Env) (ω : Oracle) (obj : ArtObject)
    (hpre : jsStartsWith ("/" ++ k) "/art/" = true)
    (hlook : σ.art.lookup k = some obj) :
    fetch (getReq ("/" ++ k)) env ω σ =
      (.ok ⟨200, [("content-type", obj.contentType), ("cache-control", obj.cacheControl),
        ("access-control-allow-origin", "*")], .blob obj.body⟩, σ, [.getArt k]) := by
  have hs : jsSlice1 ("/" ++ k) = k := rfl
  unfold fetch
  rw [show (decide ((getReq ("/" ++ k)).method = "POST") &&
      decide ((getReq ("/" ++ k)).pathname = "/api/generate")) = false from rfl]
  rw [show (decide ((getReq ("/" ++ k)).method = "GET") &&
      jsStartsWith (getReq ("/" ++ k)).pathname "/art/") =
      jsStartsWith ("/" ++ k) "/art/" from rfl]
  rw [hpre]
  simp only [Bool.false_eq_true, if_false, if_true]
  rw [show jsSlice1 (getReq ("/" ++ k)).pathname = k from hs]
  rw [hlook]

/-- Keys other than the ones a run writes are untouched by it. -/
theorem seqRun_lookup (gens : List (String × List Nat)) (σ : Store) (k : String)
    (hsize : ∀ g ∈ gens, g.2.length ≤ 5 * 1024 * 1024)
    (hk : ∀ g ∈ gens, historyKeyOf g.1 ≠ k)
    (hkl : k ≠ "art/latest.jpg") :
    (seqRun gens σ).art.lookup k = σ.art.lookup k := by
  induction gens generalizing σ with
  | nil => rfl
  | cons g t ih =>
    rw [show seqRun (g :: t) σ = seqRun t (genStep g σ) from rfl]
    rw [ih (genStep g σ) (fun x hx => hsize x (List.mem_cons_of_mem g hx))
      (fun x hx => hk x (List.mem_cons_of_mem g hx))]
    have hstore : genStep g σ =
        { σ with art := ("art/latest.jpg", ⟨g.2, "image/jpeg", "no-store, max-age=0"⟩) ::
            (historyKeyOf g.1, ⟨g.2, "image/jpeg", "public, max-age=31536000, immutable"⟩)
            :: σ.art } := by
      unfold genStep
      rw [seq_step σ g.1 g.2 (hsize g (List.mem_cons_self g t))]
    rw [hstore]
    have h1 : ((k : String) == "art/latest.jpg") = false :=
      beq_eq_false_iff_ne.mpr hkl
    have h2 : ((k : String) == historyKeyOf g.1) = false :=
      beq_eq_false_iff_ne.mpr (Ne.symm (hk g (List.mem_cons_self g t)))
    simp [List.lookup, h1, h2]

/-- Contents of the bucket after a run of successful generations:
every generation is retrievable under its history key, and the latest
key holds the bytes of the most recent generation. -/
theorem seqRun_content : ∀ (gens : List (String × List Nat)) (σ : Store),
    (∀ g ∈ gens, g.2.length ≤ 5 * 1024 * 1024) →
    (gens.map (fun g => historyKeyOf g.1)).Nodup →
    (∀ g ∈ gens, historyKeyOf g.1 ≠ "art/latest.jpg") →
    (∀ g ∈ gens, (seqRun gens σ).art.lookup (historyKeyOf g.1)
        = some ⟨g.2, "image/jpeg", "public, max-age=31536000, immutable"⟩)
    ∧ (∀ hne : gens ≠ [], (seqRun gens σ).art.lookup "art/latest.jpg"
        = some ⟨(gens.getLast hne).2, "image/jpeg", "no-store, max-age=0"⟩) := by
  intro gens
  induction gens with
  | nil =>
    intro σ _ _ _
    exact ⟨fun g hg => absurd hg (List.not_mem_nil g), fun hne => absurd rfl hne⟩
  | cons g t ih =>
    intro σ hsize hnd hlat
    have hgs := hsize g (List.mem_cons_self g t)
    have hstore : genStep g σ =
        { σ with art := ("art/latest.jpg", ⟨g.2, "image/jpeg", "no-store, max-age=0"⟩) ::
            (historyKeyOf g.1, ⟨g.2, "image/jpeg", "public, max-age=31536000, immutable"⟩)
            :: σ.art } := by
      unfold genStep
      rw [seq_step σ g.1 g.2 hgs]
    have hsizeT : ∀ x ∈ t, x.2.length ≤ 5 * 1024 * 1024 :=
      fun x hx => hsize x (List.mem_cons_of_mem g hx)
    have hndT : (t.map (fun x => historyKeyOf x.1)).Nodup := (List.nodup_cons.mp (by simpa using hnd)).2
    have hgnotin : historyKeyOf g.1 ∉ t.map (fun x => historyKeyOf x.1) :=
      (List.nodup_cons.mp (by simpa using hnd)).1
    have hlatT : ∀ x ∈ t, historyKeyOf x.1 ≠ "art/latest.jpg" :=
      fun x hx => hlat x (List.mem_cons_of_mem g hx)
    obtain ⟨ihH, ihL⟩ := ih (genStep g σ) hsizeT hndT hlatT
    constructor
    · intro x hx
      rw [show seqRun (g :: t) σ = seqRun t (genStep g σ) from rfl]
      rcases List.mem_cons.mp hx with heq | hxt
      · subst heq
        have hne : ∀ y ∈ t, historyKeyOf y.1 ≠ historyKeyOf x.1 := by
          intro y hy heq2
          exact hgnotin (heq2 ▸ List.mem_map_of_mem _ hy)
        rw [seqRun_lookup t (genStep x σ) (historyKeyOf x.1) hsizeT hne (hlat x hx)]
        rw [hstore]
        have h1 : ((historyKeyOf x.1 : String) == "art/latest.jpg") = false :=
          beq_eq_false_iff_ne.mpr (hlat x hx)
        simp [List.lookup, h1]
      · exact ihH x hxt
    · intro _
      rw [show seqRun (g :: t) σ = seqRun t (genStep g σ) from rfl]
      cases t with
      | nil =>
        rw [show seqRun [] (genStep g σ) = genStep g σ from rfl, hstore]
        simp [List.lookup]
      | cons h2 t2 =>
        have hne2 : h2 :: t2 ≠ [] := List.cons_ne_nil h2 t2
        rw [ihL hne2]
        rw [List.getLast_cons hne2]

/-- Data of a concatenation. -/
theorem stringData_append (a b : String) : (a ++ b).data = a.data ++ b.data := by
  cases a
  cases b
  rfl

/-- A list is a Boolean prefix of itself followed by anything. -/
theorem isPrefixOf_append (p rest : List Char) : p.isPrefixOf (p ++ rest) = true := by
  induction p with
  | nil => simp [List.isPrefixOf]
  | cons c cs ih => simp [List.isPrefixOf, ih]

/-- The path of every history URL lies under `/art/`. -/
theorem historyKeyUnderArt (iso : String) :
    jsStartsWith ("/" ++ historyKeyOf iso) "/art/" = true := by
  unfold jsStartsWith historyKeyOf
  rw [stringData_append, stringData_append, stringData_append]
  rw [show ("/art/" : String).data = ['/', 'a', 'r', 't', '/'] from rfl]
  rw [show ("/" : String).data = ['/'] from rfl]
  rw [show ("art/" : String).data = ['a', 'r', 't', '/'] from rfl]
  rw [show (".jpg" : String).data = ['.', 'j', 'p', 'g'] from rfl]
  simp [List.isPrefixOf, List.cons_append, List.nil_append, List.append_assoc]

/-- C7: after a sequence of successful generations (distinct history
keys, none colliding with the latest key), a GET of each generation's
history URL path returns exactly that generation's bytes, and a GET of
`art/latest.jpg` returns the bytes of the most recent generation. -/
theorem c7_roundtrip (gens : List (String × List Nat)) (σ : Store)
    (hsize : ∀ g ∈ gens, g.2.length ≤ 5 * 1024 * 1024)
    (hnd : (gens.map (fun g => historyKeyOf g.1)).Nodup)
    (hlat : ∀ g ∈ gens, historyKeyOf g.1 ≠ "art/latest.jpg") :
    (∀ g ∈ gens, ∀ env ω,
      fetch (getReq ("/" ++ historyKeyOf g.1)) env ω (seqRun gens σ) =
        (.ok ⟨200, [("content-type", "image/jpeg"),
            ("cache-control", "public, max-age=31536000, immutable"),
            ("access-control-allow-origin", "*")], .blob g.2⟩,
          seqRun gens σ, [.getArt (historyKeyOf g.1)]))
    ∧ (∀ hne : gens ≠ [], ∀ env ω,
      fetch (getReq ("/" ++ "art/latest.jpg")) env ω (seqRun gens σ) =
        (.ok ⟨200, [("content-type", "image/jpeg"),
            ("cache-control", "no-store, max-age=0"),
            ("access-control-allow-origin", "*")], .blob (gens.getLast hne).2⟩,
          seqRun gens σ, [.getArt "art/latest.jpg"])) := by
  obtain ⟨hH, hL⟩ := seqRun_content gens σ hsize hnd hlat
  constructor
  · intro g hg env ω
    exact get_art (seqRun gens σ) (historyKeyOf g.1) env ω _
      (historyKeyUnderArt g.1) (hH g hg)
  · intro hne env ω
    exact get_art (seqRun gens σ) "art/latest.jpg" env ω _
      (by decide) (hL hne)

/-- Witness for C7 with two concrete generations: the first history
URL still returns the first bytes, and the latest key returns the
second (most recent) bytes. -/
theorem c7_roundtrip_witness :
    fetch (getReq ("/" ++ historyKeyOf "2025-06-01T10:00:00.000Z")) envPlain (okOracle "x" [])
        (seqRun [("2025-06-01T10:00:00.000Z", [1]), ("2025-06-01T11:00:00.000Z", [2, 3])]
          emptyStore) =
      (.ok ⟨200, [("content-type", "image/jpeg"),
          ("cache-control", "public, max-age=31536000, immutable"),
          ("access-control-allow-origin", "*")], .blob [1]⟩,
        seqRun [("2025-06-01T10:00:00.000Z", [1]), ("2025-06-01T11:00:00.000Z", [2, 3])]
          emptyStore,
        [.getArt (historyKeyOf "2025-06-01T10:00:00.000Z")]) ∧
    fetch (getReq ("/" ++ "art/latest.jpg")) envPlain (okOracle "x" [])
        (seqRun [("2025-06-01T10:00:00.000Z", [1]), ("2025-06-01T11:00:00.000Z", [2, 3])]
          emptyStore) =
      (.ok ⟨200, [("content-type", "image/jpeg"),
          ("cache-control", "no-store, max-age=0"),
          ("access-control-allow-origin", "*")], .blob [2, 3]⟩,
        seqRun [("2025-06-01T10:00:00.000Z", [1]), ("2025-06-01T11:00:00.000Z", [2, 3])]
          emptyStore,
        [.getArt "art/latest.jpg"]) :=
  have h := c7_roundtrip
    [("2025-06-01T10:00:00.000Z", [1]), ("2025-06-01T11:00:00.000Z", [2, 3])] emptyStore
    (by decide) (by decide) (by decide)
  ⟨h.1 ("2025-06-01T10:00:00.000Z", [1]) (by decide) envPlain (okOracle "x" []),
    h.2 (by decide) envPlain (okOracle "x" [])⟩
